import Mathlib

/-!
Shallow embedding of the Pie_Mecanico repository's core logic:
the procedural walk-cycle animator (`animateWalk`/`frame`/`restoreLoop` in the
Home page component), the GLTF/GLB asset validator (`analyzeGLB`,
`analyzeGLTFJSON`, `validateExternalFiles` in gltf-utils), the
`useStoredParams.save` hook and the global-error fallback logic.

JavaScript numbers are modelled as rationals (`ℚ`); the only irrational
ingredients, `Math.sin` and `Math.PI`, are abstracted into a `MathOps`
record passed to the animator, since no verified property depends on the
actual values of the sine function.
-/

namespace Pie

/-- The shared parameter record (`LegParams` in src/lib/types.ts); all fields
are numbers. -/
structure LegParams where
  footLength : ℚ
  archHeight : ℚ
  heelRadius : ℚ
  toeCount : ℚ
  tibiaLength : ℚ
  femurLength : ℚ
  legThickness : ℚ
  kneeAngle : ℚ
  ankleAngle : ℚ
  hipAngle : ℚ
  footRotation : ℚ
  stepAngle : ℚ
  verticalShift : ℚ
  springStiffness : ℚ
  dampingFactor : ℚ
deriving DecidableEq, Repr

/-- `defaultParams` from src/lib/defaultParams.ts. -/
def defaultParams : LegParams :=
  { footLength := 26, archHeight := 4, heelRadius := 5, toeCount := 5
    tibiaLength := 38, femurLength := 45, legThickness := 6, kneeAngle := 5
    ankleAngle := -85, hipAngle := 180, footRotation := 0, stepAngle := 0
    verticalShift := 0, springStiffness := 0.5, dampingFactor := 0.3 }

/-- `lerp` helper from animateWalk: `a + (b - a) * t`. -/
def lerp (a b t : ℚ) : ℚ := a + (b - a) * t

/-- `clamp` helper from animateWalk: `Math.max(a, Math.min(b, v))`. -/
def clamp (v a b : ℚ) : ℚ := max a (min b v)

/-- `easeInOut` helper from animateWalk:
`t < 0.5 ? 2*t*t : -1 + (4 - 2*t)*t`. -/
def easeInOut (t : ℚ) : ℚ := if t < 0.5 then 2 * t * t else -1 + (4 - 2 * t) * t

/-- `phaseMix` helper from animateWalk: 0 below `s`, 1 above `e`, linear ramp
in between, with the denominator guarded by `Math.max(1e-6, e - s)`. -/
def phaseMix (p s e : ℚ) : ℚ :=
  if p < s then 0
  else if p > e then 1
  else (p - s) / max (1 / 1000000) (e - s)

/-- JavaScript number truncation toward zero (used by the `%` operator). -/
def jsTrunc (a : ℚ) : ℤ := if 0 ≤ a then ⌊a⌋ else ⌈a⌉

/-- The JavaScript remainder operator `a % b` on numbers:
`a - b * trunc(a / b)`. -/
def jsMod (a b : ℚ) : ℚ := a - b * jsTrunc (a / b)

/-- The five named gait phases of the animator's explicit state machine. -/
inductive GaitPhase
  | heelStrike
  | footFlat
  | heelRise
  | toeOff
  | swing
deriving DecidableEq, Repr

/-- The `state.timings` record of animateWalk. -/
structure Timings where
  heelStrike : ℚ
  footFlat : ℚ
  heelRise : ℚ
  toeOff : ℚ
deriving DecidableEq, Repr

/-- The concrete timings installed by animateWalk:
`{ heelStrike: 0.18, footFlat: 0.55, heelRise: 0.78, toeOff: 0.95 }`. -/
def stdTimings : Timings :=
  { heelStrike := 0.18, footFlat := 0.55, heelRise := 0.78, toeOff := 0.95 }

/-- The `nominalPhase` decision of the frame loop: an else-if cascade of
`cycleProgress <= threshold` tests, defaulting to swing. -/
def nominalPhase (t : Timings) (p : ℚ) : GaitPhase :=
  if p ≤ t.heelStrike then .heelStrike
  else if p ≤ t.footFlat then .footFlat
  else if p ≤ t.heelRise then .heelRise
  else if p ≤ t.toeOff then .toeOff
  else .swing

/-- The mutable `state` object created by animateWalk and threaded through
the frame callbacks. -/
structure AnimState where
  startTime : ℚ
  cycleDuration : ℚ
  totalCycles : ℚ
  currentCycle : ℚ
  phase : GaitPhase
  phaseStart : ℚ
  isFootLocked : Bool
  contactAnkle : ℚ
  contactArch : ℚ
  prevKnee : ℚ
  timings : Timings
  kneeStraightThreshold : ℚ
  plantSnapStrength : ℚ
deriving DecidableEq, Repr

/-- The initial animator state built by animateWalk at time `t0` with the
captured starting parameters `sp` (lines 141-171 of the Home component).
Every `?? fallback` in the source is dead because `LegParams` fields are
always present numbers. -/
def mkAnimState (t0 : ℚ) (sp : LegParams) : AnimState :=
  { startTime := t0, cycleDuration := 1200, totalCycles := 2
    currentCycle := 0, phase := .heelStrike, phaseStart := t0
    isFootLocked := false
    contactAnkle := sp.ankleAngle, contactArch := sp.archHeight
    prevKnee := sp.kneeAngle
    timings := stdTimings
    kneeStraightThreshold := sp.kneeAngle + 4
    plantSnapStrength := 0.92 }

/-- Abstraction of the JavaScript `Math` functions used by the animator. -/
structure MathOps where
  sin : ℚ → ℚ
  pi : ℚ

/-- `cycleProgress` of the frame loop:
`((now - state.startTime) % cycleDur) / cycleDur`. -/
def frameCycleProgress (st : AnimState) (now : ℚ) : ℚ :=
  jsMod (now - st.startTime) st.cycleDuration / st.cycleDuration

/-- The nominal phase of the current frame. -/
def frameNominalPhase (st : AnimState) (now : ℚ) : GaitPhase :=
  nominalPhase st.timings (frameCycleProgress st now)

/-- `heelStrikeAngle` of the frame loop. -/
def heelStrikeAngle (sp : LegParams) (st : AnimState) (now : ℚ) : ℚ :=
  lerp sp.ankleAngle (-6)
    (easeInOut (phaseMix (frameCycleProgress st now) 0 st.timings.heelStrike))

/-- `flatAngle` of the frame loop. -/
def flatAngle (st : AnimState) (now : ℚ) : ℚ :=
  lerp (-6) 6
    (easeInOut (phaseMix (frameCycleProgress st now) st.timings.heelStrike
      st.timings.footFlat))

/-- `heelRiseAngle` of the frame loop. -/
def heelRiseAngle (st : AnimState) (now : ℚ) : ℚ :=
  lerp 6 10
    (easeInOut (phaseMix (frameCycleProgress st now) st.timings.footFlat
      st.timings.heelRise))

/-- `toeOffAngle` of the frame loop. -/
def toeOffAngle (st : AnimState) (now : ℚ) : ℚ :=
  lerp 10 40
    (easeInOut (phaseMix (frameCycleProgress st now) st.timings.heelRise
      st.timings.toeOff))

/-- `kneeVel` of the frame loop: `(currentKnee - prevKnee) / (1 / 60)`.
`currentKnee` reads `params.kneeAngle` from the closure captured when
animateWalk ran, i.e. the starting parameters `sp`. -/
def kneeVel (sp : LegParams) (st : AnimState) : ℚ :=
  (sp.kneeAngle - st.prevKnee) / (1 / 60)

/-- The knee-velocity plant heuristic of the frame loop:
`kneeIsStraightening && kneeStraightAngleReached`. -/
def kneeHeuristic (sp : LegParams) (st : AnimState) : Bool :=
  decide (kneeVel sp st < -20) && decide (sp.kneeAngle ≤ st.kneeStraightThreshold)

/-- The three sequential foot-lock updates of the frame loop (lines 252-274):
enter the lock on nominal foot-flat, enter it on the knee heuristic, release
it on nominal toe-off; the contact values are fixed at lock time. -/
def lockUpdate (sp : LegParams) (st : AnimState) (now : ℚ) : AnimState :=
  let np := frameNominalPhase st now
  let flat := flatAngle st now
  let st1 :=
    if np = .footFlat ∧ st.isFootLocked = false then
      { st with
        isFootLocked := true
        contactAnkle := flat
        contactArch := max 2 (sp.archHeight - 1.4) }
    else st
  let st2 :=
    if kneeHeuristic sp st = true ∧ st1.isFootLocked = false then
      { st1 with
        isFootLocked := true
        contactAnkle := flat
        contactArch := max 2 (sp.archHeight - 1.6) }
    else st1
  if np = .toeOff ∧ st2.isFootLocked = true then
    { st2 with isFootLocked := false }
  else st2

/-- `desiredAnkle` before the lock override: chosen by the nominal phase. -/
def ankleTargetRaw (sp : LegParams) (st : AnimState) (now : ℚ) : ℚ :=
  match frameNominalPhase st now with
  | .heelStrike => heelStrikeAngle sp st now
  | .footFlat => flatAngle st now
  | .heelRise => heelRiseAngle st now
  | .toeOff => toeOffAngle st now
  | .swing => sp.ankleAngle

/-- `desiredAnkle` after the lock override: when the foot is locked the value
is pulled toward `contactAnkle` with `plantSnapStrength`. Evaluated on the
state after the lock updates. -/
def ankleTarget (sp : LegParams) (st : AnimState) (now : ℚ) : ℚ :=
  let d := ankleTargetRaw sp st now
  if st.isFootLocked then lerp d st.contactAnkle st.plantSnapStrength else d

/-- `desiredArch` of the frame loop, evaluated on the state after the lock
updates. -/
def archTarget (sp : LegParams) (st : AnimState) (now : ℚ) : ℚ :=
  if st.isFootLocked then
    lerp sp.archHeight st.contactArch st.plantSnapStrength
  else if frameNominalPhase st now = .footFlat then
    lerp sp.archHeight (max 2 (sp.archHeight - 1.4))
      (easeInOut (phaseMix (frameCycleProgress st now) st.timings.heelStrike
        st.timings.footFlat))
  else sp.archHeight

/-- `desiredKnee`: `lerp(startKnee, 70, clamp(kneeOsc, 0, 1))` with
`kneeOsc = max(0, sin((cycleProgress - 0.12) * PI))`. -/
def kneeTarget (ops : MathOps) (sp : LegParams) (st : AnimState) (now : ℚ) : ℚ :=
  lerp sp.kneeAngle 70
    (clamp (max 0 (ops.sin ((frameCycleProgress st now - 0.12) * ops.pi))) 0 1)

/-- `desiredStep`: `sin(cycleProgress * PI * 2 + PI / 2) * 12`. -/
def stepTarget (ops : MathOps) (st : AnimState) (now : ℚ) : ℚ :=
  ops.sin (frameCycleProgress st now * ops.pi * 2 + ops.pi / 2) * 12

/-- `desiredVertical`: `max(0, sin((cycleProgress - 0.25) * PI)) * 8`. -/
def verticalTarget (ops : MathOps) (st : AnimState) (now : ℚ) : ℚ :=
  max 0 (ops.sin ((frameCycleProgress st now - 0.25) * ops.pi)) * 8

/-- What the frame loop does after updating the parameters: schedule another
regular frame or enter the restore phase. -/
inductive FrameNext
  | regular
  | restore
deriving DecidableEq, Repr

/-- The full result of one frame callback. -/
structure FrameResult where
  params : LegParams
  state : AnimState
  next : FrameNext
deriving DecidableEq, Repr

/-- One step of the per-frame walk animation (lines 188-397 of the Home
component): given the captured starting parameters `sp`, the animator state
`st`, the timestamp `now` and the previous parameter record `prev`, produce
the updated parameters, the updated state, and the scheduling decision.
The `hipAngle` target is `startParams.hipAngle ?? (180 + sin(...) * 8)`;
the right operand is dead code because `hipAngle` is always present, so the
target is `sp.hipAngle`. -/
def frame (ops : MathOps) (sp : LegParams) (st : AnimState) (now : ℚ)
    (prev : LegParams) : FrameResult :=
  let st3 := lockUpdate sp st now
  let newParams : LegParams :=
    { prev with
      ankleAngle := lerp prev.ankleAngle (clamp (ankleTarget sp st3 now) (-90) 60) 0.14
      archHeight := lerp prev.archHeight (clamp (archTarget sp st3 now) 2 8) (0.14 * 1.1)
      kneeAngle := lerp prev.kneeAngle (clamp (kneeTarget ops sp st3 now) 0 90) 0.14
      stepAngle := lerp prev.stepAngle (clamp (stepTarget ops st3 now) (-35) 35) 0.14
      verticalShift := lerp prev.verticalShift (verticalTarget ops st3 now) 0.14
      hipAngle := lerp prev.hipAngle sp.hipAngle (0.14 * 0.6) }
  { params := newParams
    state := { st3 with prevKnee := sp.kneeAngle }
    next :=
      if now - st.startTime < st.cycleDuration * st.totalCycles then .regular
      else .restore }

/-- Result of one restore-phase callback: the new parameters and whether
another restore frame is scheduled (`continues = false` means the loop is
done and `isAnimating` is set to `false`). -/
structure RestoreResult where
  params : LegParams
  continues : Bool
deriving DecidableEq, Repr

/-- The JavaScript object spread `{ ...p, ...s }` for two full `LegParams`
records: every field of `s` overrides the corresponding field of `p`. -/
def spreadAll (p s : LegParams) : LegParams :=
  { p with
    footLength := s.footLength
    archHeight := s.archHeight
    heelRadius := s.heelRadius
    toeCount := s.toeCount
    tibiaLength := s.tibiaLength
    femurLength := s.femurLength
    legThickness := s.legThickness
    kneeAngle := s.kneeAngle
    ankleAngle := s.ankleAngle
    hipAngle := s.hipAngle
    footRotation := s.footRotation
    stepAngle := s.stepAngle
    verticalShift := s.verticalShift
    springStiffness := s.springStiffness
    dampingFactor := s.dampingFactor }

/-- One step of the `restoreLoop` callback (lines 364-396): ease the six
animated fields back toward the captured starting parameters over a 450 ms
window; once `e >= 450` the loop sets the parameters to
`{ ...prev, ...startParams }` and stops. -/
def restoreLoop (sp prev : LegParams) (restoreStart now2 : ℚ) : RestoreResult :=
  let e := now2 - restoreStart
  let p := clamp (e / 450) 0 1
  let eased := easeInOut p
  let mid : LegParams :=
    { prev with
      kneeAngle := lerp prev.kneeAngle sp.kneeAngle eased
      ankleAngle := lerp prev.ankleAngle sp.ankleAngle eased
      hipAngle := lerp prev.hipAngle sp.hipAngle eased
      stepAngle := lerp prev.stepAngle sp.stepAngle eased
      verticalShift := lerp prev.verticalShift sp.verticalShift eased
      archHeight := lerp prev.archHeight sp.archHeight eased }
  if e < 450 then ⟨mid, true⟩ else ⟨spreadAll mid sp, false⟩

/-! ### Global-error fallback (Home component, effects 3 and the render) -/

/-- One `window` error event as handled by `handleError`: the count ref is
incremented, and once it exceeds 2, `hasError` is set to `true`. -/
def errStep (s : ℕ × Bool) : ℕ × Bool :=
  let c := s.1 + 1
  (c, s.2 || decide (c > 2))

/-- Error-handling state after `n` global error events, starting from
`errorCountRef = 0` and `hasError = false`. -/
def errStateAfter (n : ℕ) : ℕ × Bool := errStep^[n] (0, false)

/-- What the Home component renders. -/
inductive RenderView
  | fallback
  | normalUI
deriving DecidableEq, Repr

/-- The render decision of the Home component: when `hasError` is set, the
full-screen `ErrorFallback` replaces the normal UI. -/
def homeRender (hasError : Bool) : RenderView :=
  if hasError then .fallback else .normalUI

/-! ### GLTF/GLB asset validator (gltf-utils) -/

/-- The kind of an externally referenced resource. -/
inductive ExtType
  | buffer
  | image
deriving DecidableEq, Repr

/-- The `ExternalFile` interface of gltf-utils. -/
structure ExternalFile where
  type : ExtType
  uri : String
  fileName : String
  found : Bool
deriving DecidableEq, Repr

/-- The `GLTFMetadata` interface of gltf-utils. -/
structure GLTFMetadata where
  version : String
  generator : Option String
  meshCount : ℕ
  materialCount : ℕ
  textureCount : ℕ
  animationCount : ℕ
deriving DecidableEq, Repr

/-- The `GLTFValidation` interface of gltf-utils. -/
structure GLTFValidation where
  isValid : Bool
  isGLB : Bool
  hasEmbeddedTextures : Bool
  externalFiles : List ExternalFile
  errors : List String
  warnings : List String
  metadata : GLTFMetadata
deriving DecidableEq, Repr

/-- `getDefaultMetadata` from gltf-utils. -/
def getDefaultMetadata : GLTFMetadata :=
  { version := "unknown", generator := none, meshCount := 0
    materialCount := 0, textureCount := 0, animationCount := 0 }

/-- `DataView.getUint32(off, true)` over a byte buffer: the four bytes at
`off .. off+3` little-endian, or `none` when fewer than four bytes remain
(the JS call throws a `RangeError` in that case). -/
def readUInt32LE (buf : List ℕ) (off : ℕ) : Option ℕ :=
  match buf.drop off with
  | b0 :: b1 :: b2 :: b3 :: _ =>
    some (b0 + 256 * b1 + 65536 * b2 + 16777216 * b3)
  | _ => none

/-- The GLB magic constant `0x46546C67` ("glTF" little-endian). -/
def glbMagic : ℕ := 0x46546C67

/-- The result `analyzeGLB` returns from its `catch` branch when reading the
header throws; the error string carries the thrown `RangeError`'s message. -/
def glbReadErrorResult : GLTFValidation :=
  { isValid := false, isGLB := true, hasEmbeddedTextures := false
    externalFiles := [], errors := ["Error al leer GLB: RangeError"]
    warnings := [], metadata := getDefaultMetadata }

/-- `analyzeGLB` from gltf-utils over the file's bytes: read the magic at
offset 0 (a read past the end throws and is caught), reject on a magic
mismatch, otherwise read the version at offset 4 and report a valid
self-contained GLB. -/
def analyzeGLB (buf : List ℕ) : GLTFValidation :=
  match readUInt32LE buf 0 with
  | none => glbReadErrorResult
  | some magic =>
    if magic ≠ glbMagic then
      { isValid := false, isGLB := true, hasEmbeddedTextures := false
        externalFiles := []
        errors := ["Archivo GLB inválido: magic number incorrecto"]
        warnings := [], metadata := getDefaultMetadata }
    else
      match readUInt32LE buf 4 with
      | none => glbReadErrorResult
      | some version =>
        { isValid := true, isGLB := true, hasEmbeddedTextures := true
          externalFiles := [], errors := [], warnings := []
          metadata := { version := toString version, generator := none
                        meshCount := 0, materialCount := 0
                        textureCount := 0, animationCount := 0 } }

/-- JavaScript `String.prototype.startsWith` on our string model. -/
def jsStartsWith (s pre : String) : Bool := pre.data.isPrefixOf s.data

/-- JavaScript `String.prototype.endsWith` on our string model. -/
def jsEndsWith (s suf : String) : Bool := suf.data.isSuffixOf s.data

/-- JavaScript `String.prototype.split(c)` on a one-character separator:
always returns a non-empty list of (possibly empty) segments. -/
def splitOnChar (c : Char) : List Char → List (List Char)
  | [] => [[]]
  | a :: as =>
    if a = c then [] :: splitOnChar c as
    else
      match splitOnChar c as with
      | [] => [[a]]
      | s :: ss => (a :: s) :: ss

/-- The `fileName` computed by gltf-utils for an external uri:
`uri.split('/').pop() || uri` — the last `'/'`-separated segment, falling
back to the whole uri when that segment is the empty string. -/
def jsFileName (u : String) : String :=
  let seg := String.mk ((splitOnChar '/' u.data).getLastD [])
  if seg = "" then u else seg

/-- A `buffers` array entry of a parsed GLTF JSON document. -/
structure BufferEntry where
  uri : Option String
deriving DecidableEq, Repr

/-- An `images` array entry of a parsed GLTF JSON document. -/
structure ImageEntry where
  uri : Option String
  bufferView : Option ℕ
deriving DecidableEq, Repr

/-- The `asset` object of a parsed GLTF JSON document. -/
structure GLTFAsset where
  version : Option String
  generator : Option String
deriving DecidableEq, Repr

/-- A successfully parsed GLTF JSON document, restricted to the fields
gltf-utils inspects; the four count fields stand for the lengths of the
`meshes`, `materials`, `textures` and `animations` arrays (absent arrays are
`none`). -/
structure GLTFDoc where
  asset : Option GLTFAsset
  buffers : Option (List BufferEntry)
  images : Option (List ImageEntry)
  meshes : Option ℕ
  materials : Option ℕ
  textures : Option ℕ
  animations : Option ℕ
deriving DecidableEq, Repr

/-- The `gltf.buffers.forEach` loop of `analyzeGLTFJSON`, with `i` the index
of the first entry: collect the external files (a truthy uri not starting
with `data:`) and the missing-uri warnings, in order. -/
def analyzeBuffers : List BufferEntry → ℕ → List ExternalFile × List String
  | [], _ => ([], [])
  | b :: bs, i =>
    let rest := analyzeBuffers bs (i + 1)
    match b.uri with
    | some u =>
      if u = "" then
        (rest.1, ("Buffer " ++ toString i ++ " no tiene URI") :: rest.2)
      else if jsStartsWith u "data:" then rest
      else
        (⟨.buffer, u, jsFileName u, false⟩ :: rest.1, rest.2)
    | none => (rest.1, ("Buffer " ++ toString i ++ " no tiene URI") :: rest.2)

/-- The `gltf.images.forEach` loop of `analyzeGLTFJSON`: like the buffer
loop, but an image with no truthy uri only warns when its `bufferView` is
also falsy (absent or the — falsy — index 0). -/
def analyzeImages : List ImageEntry → ℕ → List ExternalFile × List String
  | [], _ => ([], [])
  | im :: ims, i =>
    let rest := analyzeImages ims (i + 1)
    let warn := ("Imagen " ++ toString i ++ " no tiene URI ni bufferView") :: rest.2
    match im.uri with
    | some u =>
      if u = "" then
        (rest.1, if im.bufferView = none ∨ im.bufferView = some 0 then warn else rest.2)
      else if jsStartsWith u "data:" then rest
      else
        (⟨.image, u, jsFileName u, false⟩ :: rest.1, rest.2)
    | none =>
      (rest.1, if im.bufferView = none ∨ im.bufferView = some 0 then warn else rest.2)

/-- `gltf.asset?.version || '2.0'`. -/
def metadataVersion (a : Option GLTFAsset) : String :=
  match a with
  | some asset =>
    match asset.version with
    | some v => if v = "" then "2.0" else v
    | none => "2.0"
  | none => "2.0"

/-- `analyzeGLTFJSON` from gltf-utils over a successfully parsed document:
a missing `asset` is the only error source; buffers and then images
contribute external files and warnings; metadata comes from the document. -/
def analyzeGLTFJSON (doc : GLTFDoc) : GLTFValidation :=
  let errors := if doc.asset = none then ["Falta el campo \"asset\" requerido"] else []
  let bufRes := analyzeBuffers (doc.buffers.getD []) 0
  let imgRes := analyzeImages (doc.images.getD []) 0
  let externalFiles := bufRes.1 ++ imgRes.1
  { isValid := errors.isEmpty
    isGLB := false
    hasEmbeddedTextures := externalFiles.isEmpty
    externalFiles := externalFiles
    errors := errors
    warnings := bufRes.2 ++ imgRes.2
    metadata := { version := metadataVersion doc.asset
                  generator := doc.asset.bind (·.generator)
                  meshCount := doc.meshes.getD 0
                  materialCount := doc.materials.getD 0
                  textureCount := doc.textures.getD 0
                  animationCount := doc.animations.getD 0 } }

/-- The `updatedFiles` computed by `validateExternalFiles`: each external
file is marked found when some uploaded file name equals its `fileName` or
ends with it. -/
def updatedExternalFiles (v : GLTFValidation) (availableFiles : List String) :
    List ExternalFile :=
  v.externalFiles.map fun e =>
    { e with found := availableFiles.any fun n =>
        decide (n = e.fileName) || jsEndsWith n e.fileName }

/-- The number of still-missing external files after the update
(`updatedFiles.filter(f => !f.found).length`). -/
def missingCount (v : GLTFValidation) (availableFiles : List String) : ℕ :=
  ((updatedExternalFiles v availableFiles).filter fun e => !e.found).length

/-- `validateExternalFiles` from gltf-utils: update the found flags and
append a single warning naming the number of missing files when at least
one is missing. -/
def validateExternalFiles (v : GLTFValidation) (availableFiles : List String) :
    GLTFValidation :=
  let updated := updatedExternalFiles v availableFiles
  let missing := missingCount v availableFiles
  { v with
    externalFiles := updated
    warnings := v.warnings ++
      (if missing > 0 then ["Faltan " ++ toString missing ++ " archivos externos"]
       else []) }

/-! ### `useStoredParams.save` (src/hooks/useStoredParams.ts) -/

/-- The persistent state the hook manages for the parameter record: the
in-memory `storedRef.current.params` and the `"pierna:params"` localStorage
entry (`none` when absent). -/
structure StoredState where
  memParams : LegParams
  storedJson : Option String
deriving DecidableEq, Repr

/-- A model of `JSON.stringify` on a `LegParams` record: the field values
serialized in declaration order. -/
def stringifyParams (p : LegParams) : String :=
  "\x7b\"footLength\":" ++ toString p.footLength ++
  ",\"archHeight\":" ++ toString p.archHeight ++
  ",\"heelRadius\":" ++ toString p.heelRadius ++
  ",\"toeCount\":" ++ toString p.toeCount ++
  ",\"tibiaLength\":" ++ toString p.tibiaLength ++
  ",\"femurLength\":" ++ toString p.femurLength ++
  ",\"legThickness\":" ++ toString p.legThickness ++
  ",\"kneeAngle\":" ++ toString p.kneeAngle ++
  ",\"ankleAngle\":" ++ toString p.ankleAngle ++
  ",\"hipAngle\":" ++ toString p.hipAngle ++
  ",\"footRotation\":" ++ toString p.footRotation ++
  ",\"stepAngle\":" ++ toString p.stepAngle ++
  ",\"verticalShift\":" ++ toString p.verticalShift ++
  ",\"springStiffness\":" ++ toString p.springStiffness ++
  ",\"dampingFactor\":" ++ toString p.dampingFactor ++ "\x7d"

/-- `useStoredParams.save(next)`: inside the `try`, when the JSON of `next`
equals the JSON of the current record nothing happens; otherwise the
in-memory record is assigned `next` first and `localStorage.setItem` runs
second, so when `setItem` throws (`setItemOk = false`) the exception is
caught with the in-memory record already updated and the persisted entry
untouched. -/
def save (st : StoredState) (next : LegParams) (setItemOk : Bool) : StoredState :=
  if stringifyParams st.memParams = stringifyParams next then st
  else if setItemOk then
    { memParams := next, storedJson := some (stringifyParams next) }
  else
    { st with memParams := next }

/-! ## Supporting lemmas -/

/-- A fixed trivial instantiation of the abstract `Math` functions, used to
evaluate the animator at concrete inputs in witnesses and counterexamples.
The properties verified below hold for every `MathOps`. -/
def zeroOps : MathOps := ⟨fun _ => 0, 0⟩

/-- For a nonnegative dividend and positive divisor, the JavaScript
remainder normalized by the divisor lies in `[0, 1)`. -/
theorem jsMod_div_mem (e cd : ℚ) (he : 0 ≤ e) (hcd : 0 < cd) :
    0 ≤ jsMod e cd / cd ∧ jsMod e cd / cd < 1 := by
  have hx : (0 : ℚ) ≤ e / cd := div_nonneg he hcd.le
  have htr : jsTrunc (e / cd) = ⌊e / cd⌋ := if_pos hx
  have hkey : jsMod e cd / cd = Int.fract (e / cd) := by
    unfold jsMod
    rw [htr, Int.fract, sub_div, mul_div_cancel_left₀ _ (ne_of_gt hcd)]
  rw [hkey]
  exact ⟨Int.fract_nonneg _, Int.fract_lt_one _⟩

/-- After `n` global error events the counter is `n` and `hasError` holds
exactly when `n > 2`. -/
theorem errStateAfter_spec (n : ℕ) : errStateAfter n = (n, decide (n > 2)) := by
  induction n with
  | zero => rfl
  | succ k ih =>
    unfold errStateAfter at *
    rw [Function.iterate_succ_apply', ih]
    unfold errStep
    rcases Nat.lt_or_ge k 2 with h | h
    · have h1 : ¬ k > 2 := by omega
      have h2 : ¬ k + 1 > 2 := by omega
      simp [h1, h2]
    · have h2 : k + 1 > 2 := by omega
      simp [h2]

/-- The interval bounds of `clamp`. -/
theorem clamp_mem (v a b : ℚ) (hab : a ≤ b) :
    a ≤ clamp v a b ∧ clamp v a b ≤ b :=
  ⟨le_max_left _ _, max_le hab (min_le_left _ _)⟩

/-- Blending an in-range value toward a clamped target by a factor in
`[0, 1]` stays in range. -/
theorem lerp_clamp_mem (x v a b t : ℚ) (hx0 : a ≤ x) (hx1 : x ≤ b)
    (ht0 : 0 ≤ t) (ht1 : t ≤ 1) :
    a ≤ lerp x (clamp v a b) t ∧ lerp x (clamp v a b) t ≤ b := by
  obtain ⟨hc0, hc1⟩ := clamp_mem v a b (le_trans hx0 hx1)
  set c := clamp v a b with hc
  unfold lerp
  constructor
  · nlinarith [mul_nonneg (sub_nonneg.mpr hx0) (sub_nonneg.mpr ht1),
      mul_nonneg (sub_nonneg.mpr hc0) ht0]
  · nlinarith [mul_nonneg (sub_nonneg.mpr hx1) (sub_nonneg.mpr ht1),
      mul_nonneg (sub_nonneg.mpr hc1) ht0]

/-- Closed form of the net foot-lock update performed by one frame: release
on nominal toe-off, otherwise lock as soon as the phase is foot-flat or the
knee heuristic fires. -/
theorem frame_isFootLocked (ops : MathOps) (sp : LegParams) (st : AnimState)
    (now : ℚ) (prev : LegParams) :
    (frame ops sp st now prev).state.isFootLocked =
      (if frameNominalPhase st now = GaitPhase.toeOff then false
       else st.isFootLocked ||
        decide (frameNominalPhase st now = GaitPhase.footFlat) ||
        kneeHeuristic sp st) := by
  cases hph : frameNominalPhase st now <;>
    cases hlk : st.isFootLocked <;>
      cases hkh : kneeHeuristic sp st <;>
        simp [frame, lockUpdate, hph, hlk, hkh]

/-- Membership in the external-file list produced by the buffer loop:
exactly the records built from buffer entries with a truthy uri that does
not start with `data:` (the index only feeds the warnings). -/
theorem analyzeBuffers_files_mem (bs : List BufferEntry) (i : ℕ)
    (e : ExternalFile) :
    e ∈ (analyzeBuffers bs i).1 ↔
      ∃ b ∈ bs, ∃ u, b.uri = some u ∧ u ≠ "" ∧
        jsStartsWith u "data:" = false ∧
        e = ⟨ExtType.buffer, u, jsFileName u, false⟩ := by
  induction bs generalizing i with
  | nil => simp [analyzeBuffers]
  | cons b bs ih =>
    unfold analyzeBuffers
    cases hu : b.uri with
    | none => simp [hu, ih (i + 1)]
    | some u =>
      by_cases hue : u = ""
      · subst hue
        simp [hu, ih (i + 1)]
      · by_cases hds : jsStartsWith u "data:"
        · simp [hu, hue, hds, ih (i + 1)]
        · simp only [Bool.not_eq_true] at hds
          simp [hu, hue, hds, ih (i + 1), List.mem_cons]

/-- Membership in the external-file list produced by the image loop:
exactly the records built from image entries with a truthy uri that does
not start with `data:` (the `bufferView` check only feeds the warnings). -/
theorem analyzeImages_files_mem (ims : List ImageEntry) (i : ℕ)
    (e : ExternalFile) :
    e ∈ (analyzeImages ims i).1 ↔
      ∃ im ∈ ims, ∃ u, im.uri = some u ∧ u ≠ "" ∧
        jsStartsWith u "data:" = false ∧
        e = ⟨ExtType.image, u, jsFileName u, false⟩ := by
  induction ims generalizing i with
  | nil => simp [analyzeImages]
  | cons im ims ih =>
    unfold analyzeImages
    cases hu : im.uri with
    | none => simp [hu, ih (i + 1)]
    | some u =>
      by_cases hue : u = ""
      · subst hue
        simp [hu, ih (i + 1)]
      · by_cases hds : jsStartsWith u "data:"
        · simp [hu, hue, hds, ih (i + 1)]
        · simp only [Bool.not_eq_true] at hds
          simp [hu, hue, hds, ih (i + 1), List.mem_cons]

/-- The found flag assigned by `validateExternalFiles` is the uploaded-name
match of the source: equality with the file name or an `endsWith` hit. -/
theorem validate_found (v : GLTFValidation) (files : List String)
    (f : ExternalFile)
    (hf : f ∈ (validateExternalFiles v files).externalFiles) :
    f.found = true ↔
      ∃ n ∈ files, n = f.fileName ∨ jsEndsWith n f.fileName = true := by
  have hupd : (validateExternalFiles v files).externalFiles =
      updatedExternalFiles v files := rfl
  rw [hupd] at hf
  unfold updatedExternalFiles at hf
  rw [List.mem_map] at hf
  obtain ⟨e0, he0, rfl⟩ := hf
  simp [List.any_eq_true]

/-- When at least one external file is still missing, `validateExternalFiles`
appends exactly one warning naming the missing count. -/
theorem validate_warnings_missing (v : GLTFValidation) (files : List String)
    (h : ∃ g ∈ (validateExternalFiles v files).externalFiles,
      g.found = false) :
    (validateExternalFiles v files).warnings =
      v.warnings ++
        ["Faltan " ++ toString (missingCount v files) ++ " archivos externos"] := by
  obtain ⟨g, hg, hgf⟩ := h
  have hg' : g ∈ updatedExternalFiles v files := hg
  have hmem : g ∈ (updatedExternalFiles v files).filter fun e => !e.found :=
    List.mem_filter.mpr ⟨hg', by simp [hgf]⟩
  have hmc : 0 < missingCount v files := by
    unfold missingCount
    exact List.length_pos_of_mem hmem
  show v.warnings ++
      (if missingCount v files > 0 then
        ["Faltan " ++ toString (missingCount v files) ++ " archivos externos"]
       else []) = _
  rw [if_pos hmc]

/-- When every external file was found, `validateExternalFiles` leaves the
warnings unchanged. -/
theorem validate_warnings_complete (v : GLTFValidation) (files : List String)
    (h : ∀ g ∈ (validateExternalFiles v files).externalFiles,
      g.found = true) :
    (validateExternalFiles v files).warnings = v.warnings := by
  have hmc : missingCount v files = 0 := by
    unfold missingCount
    rw [List.length_eq_zero, List.filter_eq_nil_iff]
    intro a ha
    have := h a ha
    simp [this]
  show v.warnings ++
      (if missingCount v files > 0 then
        ["Faltan " ++ toString (missingCount v files) ++ " archivos externos"]
       else []) = _
  rw [hmc]
  simp

/-! ## Claims -/

/-- C1: in the per-frame update the cycle progress (elapsed time modulo the
cycle duration, normalized to `[0,1)`) is mapped to the five named phases by
the fixed thresholds 0.18, 0.55, 0.78, 0.95 of the animator's timings, and
progress 0.2 resolves to foot-flat. -/
theorem C1_phase_thresholds :
    (∀ t0 sp, (mkAnimState t0 sp).timings = stdTimings) ∧
    (∀ p : ℚ,
      (p ≤ 0.18 → nominalPhase stdTimings p = GaitPhase.heelStrike) ∧
      (0.18 < p → p ≤ 0.55 → nominalPhase stdTimings p = GaitPhase.footFlat) ∧
      (0.55 < p → p ≤ 0.78 → nominalPhase stdTimings p = GaitPhase.heelRise) ∧
      (0.78 < p → p ≤ 0.95 → nominalPhase stdTimings p = GaitPhase.toeOff) ∧
      (0.95 < p → nominalPhase stdTimings p = GaitPhase.swing)) ∧
    nominalPhase stdTimings 0.2 = GaitPhase.footFlat ∧
    (∀ e cd : ℚ, 0 ≤ e → 0 < cd →
      0 ≤ jsMod e cd / cd ∧ jsMod e cd / cd < 1) := by
  refine ⟨fun t0 sp => rfl, fun p => ?_, by norm_num [nominalPhase, stdTimings],
    fun e cd he hcd => jsMod_div_mem e cd he hcd⟩
  unfold nominalPhase stdTimings
  refine ⟨fun h1 => by rw [if_pos h1], fun h1 h2 => ?_, fun h2 h3 => ?_,
    fun h3 h4 => ?_, fun h4 => ?_⟩
  · rw [if_neg (not_le.mpr h1), if_pos h2]
  · rw [if_neg (by simp only; linarith), if_neg (not_le.mpr h2), if_pos h3]
  · rw [if_neg (by simp only; linarith), if_neg (by simp only; linarith),
      if_neg (not_le.mpr h3), if_pos h4]
  · rw [if_neg (by simp only; linarith), if_neg (by simp only; linarith),
      if_neg (by simp only; linarith), if_neg (not_le.mpr h4)]

/-- C1 witness: the theorem applied at progress 0.2 and at elapsed time 360
out of a 1200 ms cycle. -/
theorem C1_witness :
    nominalPhase stdTimings 0.2 = GaitPhase.footFlat ∧
    (0 ≤ jsMod 360 1200 / 1200 ∧ jsMod 360 1200 / 1200 < 1) :=
  ⟨C1_phase_thresholds.2.2.1,
    C1_phase_thresholds.2.2.2 360 1200 (by norm_num) (by norm_num)⟩

/-- C2 counterexample: the 4-byte buffer "glTF" carries exactly the magic
constant in its first four bytes, yet `analyzeGLB` reports it invalid with a
non-empty error list (the version read at offset 4 throws and is caught), so
the claimed equivalence fails for short buffers. -/
theorem C2_counterexample :
    readUInt32LE [103, 108, 84, 70] 0 = some glbMagic ∧
    (analyzeGLB [103, 108, 84, 70]).isValid = false ∧
    (analyzeGLB [103, 108, 84, 70]).errors ≠ [] := by
  refine ⟨by norm_num [readUInt32LE, glbMagic], ?_, ?_⟩ <;>
    simp [analyzeGLB, readUInt32LE, glbMagic, glbReadErrorResult]

/-- C2 (amended): for every buffer of at least 8 bytes, `analyzeGLB` reports
invalid with a non-empty error list exactly when the first four bytes, read
as a little-endian 32-bit integer, differ from `0x46546C67`; when they are
equal it reports valid, no external files, embedded textures, and the
decimal string of the second little-endian header field as the version. -/
theorem C2_analyzeGLB_header (buf : List ℕ) (b0 b1 b2 b3 b4 b5 b6 b7 : ℕ)
    (rest : List ℕ)
    (hbuf : buf = b0 :: b1 :: b2 :: b3 :: b4 :: b5 :: b6 :: b7 :: rest) :
    ((analyzeGLB buf).isValid = false ∧ (analyzeGLB buf).errors ≠ [] ↔
      b0 + 256 * b1 + 65536 * b2 + 16777216 * b3 ≠ glbMagic) ∧
    (b0 + 256 * b1 + 65536 * b2 + 16777216 * b3 = glbMagic →
      (analyzeGLB buf).isValid = true ∧
      (analyzeGLB buf).externalFiles = [] ∧
      (analyzeGLB buf).hasEmbeddedTextures = true ∧
      (analyzeGLB buf).metadata.version =
        toString (b4 + 256 * b5 + 65536 * b6 + 16777216 * b7)) := by
  subst hbuf
  by_cases hm : b0 + 256 * b1 + 65536 * b2 + 16777216 * b3 = glbMagic <;>
    simp [analyzeGLB, readUInt32LE, hm]

/-- C2 witness: an 8-byte GLB header with the correct magic and version 2. -/
theorem C2_witness :
    (analyzeGLB [103, 108, 84, 70, 2, 0, 0, 0]).isValid = true ∧
    (analyzeGLB [103, 108, 84, 70, 2, 0, 0, 0]).externalFiles = [] ∧
    (analyzeGLB [103, 108, 84, 70, 2, 0, 0, 0]).hasEmbeddedTextures = true ∧
    (analyzeGLB [103, 108, 84, 70, 2, 0, 0, 0]).metadata.version =
      toString (2 + 256 * 0 + 65536 * 0 + 16777216 * 0) :=
  (C2_analyzeGLB_header _ 103 108 84 70 2 0 0 0 [] rfl).2 (by norm_num [glbMagic])

/-- C3: the walking animation schedules a next regular frame exactly while
the elapsed time since start is below `cycleDuration * totalCycles`
(2 cycles of 1200 ms, as installed by `mkAnimState`); the restore loop keeps
scheduling exactly while its elapsed time is below 450 ms, and at the end it
sets every parameter field back to the captured starting record and reports
the animation stopped. -/
theorem C3_termination_and_restore (ops : MathOps) (sp : LegParams)
    (st : AnimState) (now t0 rs now2 : ℚ) (prev q : LegParams)
    (hcd : st.cycleDuration = 1200) (htc : st.totalCycles = 2) :
    ((frame ops sp st now prev).next = FrameNext.regular ↔
      now - st.startTime < 1200 * 2) ∧
    (mkAnimState t0 sp).cycleDuration = 1200 ∧
    (mkAnimState t0 sp).totalCycles = 2 ∧
    (mkAnimState t0 sp).startTime = t0 ∧
    ((restoreLoop sp q rs now2).continues = true ↔ now2 - rs < 450) ∧
    (450 ≤ now2 - rs → restoreLoop sp q rs now2 = ⟨sp, false⟩) := by
  refine ⟨?_, rfl, rfl, rfl, ?_, fun h => ?_⟩
  · unfold frame
    rw [hcd, htc]
    split_ifs with h <;> simp [h]
  · unfold restoreLoop
    dsimp only
    split_ifs with h <;> simp [h]
  · unfold restoreLoop
    dsimp only
    rw [if_neg (not_lt.mpr h)]
    rfl

/-- C3 witness: at 100 ms into the first cycle the animator schedules a
regular frame; a restore step at exactly 450 ms restores the captured
record and stops. -/
theorem C3_witness :
    (frame zeroOps defaultParams (mkAnimState 0 defaultParams) 100
      defaultParams).next = FrameNext.regular ∧
    restoreLoop defaultParams { defaultParams with kneeAngle := 50 } 0 450 =
      ⟨defaultParams, false⟩ :=
  ⟨(C3_termination_and_restore zeroOps defaultParams (mkAnimState 0 defaultParams)
      100 0 0 450 defaultParams defaultParams rfl rfl).1.mpr
      (by norm_num [mkAnimState]),
    (C3_termination_and_restore zeroOps defaultParams (mkAnimState 0 defaultParams)
      100 0 0 450 defaultParams { defaultParams with kneeAngle := 50 } rfl
      rfl).2.2.2.2.2 (by norm_num)⟩

/-- C7: the full-screen error fallback is rendered exactly when the number
of global window error events observed so far exceeds 2; before the third
error the normal UI renders, and from the third error on every render shows
the fallback. -/
theorem C7_error_fallback (n : ℕ) :
    homeRender (errStateAfter n).2 = RenderView.fallback ↔ 2 < n := by
  rw [errStateAfter_spec]
  by_cases h : 2 < n <;> simp [homeRender, h]

/-- C7 witness: after exactly 3 global errors the fallback is rendered. -/
theorem C7_witness : homeRender (errStateAfter 3).2 = RenderView.fallback :=
  (C7_error_fallback 3).mpr (by norm_num)

/-- C8: the per-frame update is deterministic — two runs given equal frame
timestamps, equal previous parameter records and equal internal animator
state (including the captured starting parameters and the abstracted math
functions) produce identical new parameters, state and scheduling. -/
theorem C8_frame_deterministic (ops ops2 : MathOps) (sp sp2 : LegParams)
    (st st2 : AnimState) (now now2 : ℚ) (prev prev2 : LegParams)
    (hops : ops = ops2) (hsp : sp = sp2) (hst : st = st2) (hnow : now = now2)
    (hprev : prev = prev2) :
    frame ops sp st now prev = frame ops2 sp2 st2 now2 prev2 := by
  subst hops hsp hst hnow hprev
  rfl

/-- C8 witness: the determinism theorem applied at a concrete input. -/
theorem C8_witness :
    frame zeroOps defaultParams (mkAnimState 0 defaultParams) 100 defaultParams =
      frame zeroOps defaultParams (mkAnimState 0 defaultParams) 100 defaultParams :=
  C8_frame_deterministic zeroOps zeroOps defaultParams defaultParams
    (mkAnimState 0 defaultParams) (mkAnimState 0 defaultParams) 100 100
    defaultParams defaultParams rfl rfl rfl rfl rfl

/-- A concrete stored parameter record with integer-valued fields (used by
the `save` counterexample and witness so stringification evaluates). -/
def intParams : LegParams :=
  { footLength := 26, archHeight := 4, heelRadius := 5, toeCount := 5
    tibiaLength := 38, femurLength := 45, legThickness := 6, kneeAngle := 5
    ankleAngle := -85, hipAngle := 180, footRotation := 0, stepAngle := 0
    verticalShift := 0, springStiffness := 1, dampingFactor := 1 }

/-- C10 counterexample: with a storage exception (`setItemOk = false`) and a
record that differs from the stored one, `save` still changes the in-memory
record to `next` — the assignment happens before `localStorage.setItem`
throws — refuting the claim that the in-memory record is left unchanged. -/
theorem C10_counterexample :
    stringifyParams intParams ≠
      stringifyParams { intParams with kneeAngle := 6 } ∧
    (save ⟨intParams, none⟩ { intParams with kneeAngle := 6 }
        false).memParams ≠ intParams ∧
    (save ⟨intParams, none⟩ { intParams with kneeAngle := 6 }
        false).memParams = { intParams with kneeAngle := 6 } := by
  refine ⟨by decide, by decide, by decide⟩

/-- C10 (amended): `save next` is a no-op when the JSON of `next` equals the
JSON of the stored record; otherwise with `setItem` succeeding it sets both
the in-memory record and the persisted entry to `next`, and on a storage
exception the in-memory record has already been set to `next` while only
the persisted entry is left unchanged. -/
theorem C10_save_behavior (st : StoredState) (next : LegParams) (ok : Bool) :
    (stringifyParams st.memParams = stringifyParams next →
      save st next ok = st) ∧
    (stringifyParams st.memParams ≠ stringifyParams next → ok = true →
      save st next ok = ⟨next, some (stringifyParams next)⟩) ∧
    (stringifyParams st.memParams ≠ stringifyParams next → ok = false →
      save st next ok = ⟨next, st.storedJson⟩) := by
  refine ⟨fun h => ?_, fun h hok => ?_, fun h hok => ?_⟩
  · unfold save
    rw [if_pos h]
  · unfold save
    rw [if_neg h, hok, if_pos rfl]
  · unfold save
    rw [if_neg h, hok]
    rfl

/-- Modelled from the claim's words: "the last '/'-separated segment of the
uri", with no fallback. Used only to compare the claim's description of
`fileName` against the source's `uri.split('/').pop() || uri`. -/
def lastSegmentSpec (u : String) : String :=
  String.mk ((splitOnChar '/' u.data).getLastD [])

/-- Document for the C4 counterexample: one buffer whose uri ends in a
slash. -/
def docC4 : GLTFDoc :=
  { asset := some ⟨some "2.0", none⟩, buffers := some [⟨some "b/"⟩]
    images := none, meshes := none, materials := none, textures := none
    animations := none }

/-- C4 counterexample: for the uri `"b/"` the last '/'-separated segment is
the empty string, but `analyzeGLTFJSON` records the whole uri `"b/"` as the
fileName (the source falls back to the uri when `pop()` yields a falsy
string), so "fileName the last '/'-separated segment of the uri" fails. -/
theorem C4_counterexample :
    (analyzeGLTFJSON docC4).externalFiles.map (fun e => e.fileName) = ["b/"] ∧
    lastSegmentSpec "b/" = "" ∧ ("b/" : String) ≠ "" := by
  refine ⟨by decide, by decide, by decide⟩

/-- C4 (amended): for every parsed GLTF document, `analyzeGLTFJSON` puts
into `externalFiles` exactly the records built from buffer entries and
image entries whose uri is present, non-empty and does not start with
`data:` (type buffer resp. image, fileName the last '/'-separated segment
of the uri or the whole uri when that segment is empty, found initially
false); `validateExternalFiles` then marks an external file found exactly
when some uploaded file's name equals its fileName or ends with it, and it
appends one warning naming the missing count exactly when at least one
external file is missing. -/
theorem C4_external_files (doc : GLTFDoc) (files : List String)
    (e f : ExternalFile) :
    (e ∈ (analyzeGLTFJSON doc).externalFiles ↔
      (∃ b ∈ doc.buffers.getD [], ∃ u, b.uri = some u ∧ u ≠ "" ∧
        jsStartsWith u "data:" = false ∧
        e = ⟨ExtType.buffer, u, jsFileName u, false⟩) ∨
      (∃ im ∈ doc.images.getD [], ∃ u, im.uri = some u ∧ u ≠ "" ∧
        jsStartsWith u "data:" = false ∧
        e = ⟨ExtType.image, u, jsFileName u, false⟩)) ∧
    (f ∈ (validateExternalFiles (analyzeGLTFJSON doc) files).externalFiles →
      (f.found = true ↔
        ∃ n ∈ files, n = f.fileName ∨ jsEndsWith n f.fileName = true)) ∧
    ((∃ g ∈ (validateExternalFiles (analyzeGLTFJSON doc) files).externalFiles,
        g.found = false) →
      (validateExternalFiles (analyzeGLTFJSON doc) files).warnings =
        (analyzeGLTFJSON doc).warnings ++
          ["Faltan " ++ toString (missingCount (analyzeGLTFJSON doc) files) ++
            " archivos externos"]) ∧
    ((∀ g ∈ (validateExternalFiles (analyzeGLTFJSON doc) files).externalFiles,
        g.found = true) →
      (validateExternalFiles (analyzeGLTFJSON doc) files).warnings =
        (analyzeGLTFJSON doc).warnings) := by
  refine ⟨?_, validate_found _ files f, validate_warnings_missing _ files,
    validate_warnings_complete _ files⟩
  have happ : (analyzeGLTFJSON doc).externalFiles =
      (analyzeBuffers (doc.buffers.getD []) 0).1 ++
        (analyzeImages (doc.images.getD []) 0).1 := rfl
  rw [happ, List.mem_append, analyzeBuffers_files_mem,
    analyzeImages_files_mem]

/-- Document for the C4 witness: one external buffer `models/a.bin` and one
external image `tex.png`. -/
def docC4w : GLTFDoc :=
  { asset := some ⟨some "2.0", none⟩
    buffers := some [⟨some "models/a.bin"⟩]
    images := some [⟨some "tex.png", none⟩]
    meshes := none, materials := none, textures := none, animations := none }

/-- C4 witness: uploading only `a.bin` satisfies the buffer but leaves the
image missing, so the missing-files warning is appended. -/
theorem C4_witness :
    (validateExternalFiles (analyzeGLTFJSON docC4w) ["a.bin"]).warnings =
      (analyzeGLTFJSON docC4w).warnings ++
        ["Faltan " ++ toString (missingCount (analyzeGLTFJSON docC4w) ["a.bin"]) ++
          " archivos externos"] :=
  (C4_external_files docC4w ["a.bin"] ⟨ExtType.buffer, "", "", false⟩
    ⟨ExtType.buffer, "", "", false⟩).2.2.1
    ⟨⟨ExtType.image, "tex.png", "tex.png", false⟩, by decide, rfl⟩

/-- C5: the foot-lock flag moves from unlocked to locked only when the
nominal phase is foot-flat or the knee-velocity heuristic fires (knee
angular velocity below -20 deg/s with the current knee angle at or below
the straight-knee threshold), moves from locked to unlocked only on
nominal toe-off, and is unchanged whenever none of those conditions
holds. -/
theorem C5_footlock_transitions (ops : MathOps) (sp : LegParams)
    (st : AnimState) (now : ℚ) (prev : LegParams) :
    (st.isFootLocked = false →
      (frame ops sp st now prev).state.isFootLocked = true →
      frameNominalPhase st now = GaitPhase.footFlat ∨
        kneeHeuristic sp st = true) ∧
    (st.isFootLocked = true →
      (frame ops sp st now prev).state.isFootLocked = false →
      frameNominalPhase st now = GaitPhase.toeOff) ∧
    (frameNominalPhase st now ≠ GaitPhase.footFlat →
      frameNominalPhase st now ≠ GaitPhase.toeOff →
      kneeHeuristic sp st = false →
      (frame ops sp st now prev).state.isFootLocked = st.isFootLocked) := by
  have h := frame_isFootLocked ops sp st now prev
  by_cases hto : frameNominalPhase st now = GaitPhase.toeOff
  · rw [hto] at h
    simp only [if_pos rfl] at h
    refine ⟨fun h0 h1 => ?_, fun h0 h1 => hto, fun hn1 hn2 hn3 => absurd hto hn2⟩
    rw [h] at h1
    exact absurd h1 (by simp)
  · rw [if_neg hto] at h
    refine ⟨fun h0 h1 => ?_, fun h0 h1 => ?_, fun hn1 hn2 hn3 => ?_⟩
    · rw [h, h0] at h1
      simp only [Bool.false_or, Bool.or_eq_true, decide_eq_true_iff] at h1
      exact h1
    · rw [h, h0] at h1
      simp at h1
    · rw [h, hn3]
      have : decide (frameNominalPhase st now = GaitPhase.footFlat) = false :=
        decide_eq_false hn1
      rw [this]
      simp

/-- C5 witness: at 360 ms into a 1200 ms cycle (progress 0.3 — foot-flat)
the initially unlocked foot locks, so the theorem's first transition yields
its disjunction. -/
theorem C5_witness :
    frameNominalPhase (mkAnimState 0 defaultParams) 360 = GaitPhase.footFlat ∨
      kneeHeuristic defaultParams (mkAnimState 0 defaultParams) = true :=
  (C5_footlock_transitions zeroOps defaultParams (mkAnimState 0 defaultParams)
    360 defaultParams).1 rfl
    (by
      have hph : frameNominalPhase (mkAnimState 0 defaultParams) 360 =
          GaitPhase.footFlat := by
        norm_num [frameNominalPhase, nominalPhase, frameCycleProgress, jsMod,
          jsTrunc, stdTimings, mkAnimState]
      rw [frame_isFootLocked, hph]
      simp)

/-- Concrete inputs for the smoothing-factor counterexample: the captured
starting record has ankle 60, hip 200, knee 50; the previous record has
ankle 0 and hip 0; the frame runs at the very start of the cycle
(heel-strike, unlocked, heuristic quiet). -/
def spC6 : LegParams := { intParams with ankleAngle := 60, hipAngle := 200, kneeAngle := 50 }

/-- Previous parameter record for the smoothing-factor counterexample. -/
def prevC6 : LegParams := { intParams with ankleAngle := 0, hipAngle := 0 }

/-- C6 counterexample: in one frame the ankle moves from 0 toward its
clamped target 60 and lands at 8.4 (factor 0.14), while the hip moves from
0 toward its target 200 and lands at 16.8 (factor 0.084); no single
smoothing factor produces both, refuting "one single fixed smoothing factor
that is the same for all parameters". -/
theorem C6_counterexample :
    (frame zeroOps spC6 (mkAnimState 0 spC6) 0 prevC6).params.ankleAngle = 8.4 ∧
    (frame zeroOps spC6 (mkAnimState 0 spC6) 0 prevC6).params.hipAngle = 16.8 ∧
    clamp (ankleTarget spC6 (lockUpdate spC6 (mkAnimState 0 spC6) 0) 0) (-90) 60 = 60 ∧
    prevC6.ankleAngle = 0 ∧ spC6.hipAngle = 200 ∧ prevC6.hipAngle = 0 ∧
    ¬ ∃ t : ℚ, lerp 0 60 t = 8.4 ∧ lerp 0 200 t = 16.8 := by
  have hph : frameNominalPhase (mkAnimState 0 spC6) 0 = GaitPhase.heelStrike := by
    norm_num [frameNominalPhase, nominalPhase, frameCycleProgress, jsMod,
      jsTrunc, stdTimings, mkAnimState]
  have hkh : kneeHeuristic spC6 (mkAnimState 0 spC6) = false := by
    norm_num [kneeHeuristic, kneeVel, mkAnimState, spC6, intParams]
  have hlock : lockUpdate spC6 (mkAnimState 0 spC6) 0 = mkAnimState 0 spC6 := by
    unfold lockUpdate
    rw [hph, hkh]
    simp [mkAnimState]
  have htar : ankleTarget spC6 (mkAnimState 0 spC6) 0 = 60 := by
    unfold ankleTarget ankleTargetRaw
    rw [hph]
    norm_num [heelStrikeAngle, frameCycleProgress, jsMod, jsTrunc, phaseMix,
      easeInOut, lerp, mkAnimState, stdTimings, spC6, intParams]
  refine ⟨?_, ?_, ?_, rfl, rfl, rfl, ?_⟩
  · show lerp prevC6.ankleAngle
      (clamp (ankleTarget spC6 (lockUpdate spC6 (mkAnimState 0 spC6) 0) 0)
        (-90) 60) 0.14 = 8.4
    rw [hlock, htar]
    norm_num [lerp, clamp, prevC6, intParams]
  · show lerp prevC6.hipAngle spC6.hipAngle (0.14 * 0.6) = 16.8
    norm_num [lerp, spC6, prevC6, intParams]
  · rw [hlock, htar]
    norm_num [clamp]
  · rintro ⟨t, h1, h2⟩
    unfold lerp at h1 h2
    nlinarith [h1, h2]

/-- C6 (amended): on every frame each animated parameter is updated by
linear interpolation from its previous value toward exactly its per-phase
target — `ankleTarget`, `archTarget`, `kneeTarget`, `stepTarget` clamped to
their ranges, `verticalTarget` and the captured starting hip angle
unclamped, each evaluated on the post-lock state — with a fixed
per-parameter smoothing factor: 0.14 for ankle, knee, step and vertical
shift, 0.14·1.1 for arch height, and 0.14·0.6 for hip. -/
theorem C6_per_param_smoothing (ops : MathOps) (sp : LegParams)
    (st : AnimState) (now : ℚ) (prev : LegParams) :
    (frame ops sp st now prev).params.ankleAngle =
      lerp prev.ankleAngle
        (clamp (ankleTarget sp (lockUpdate sp st now) now) (-90) 60) 0.14 ∧
    (frame ops sp st now prev).params.archHeight =
      lerp prev.archHeight
        (clamp (archTarget sp (lockUpdate sp st now) now) 2 8) (0.14 * 1.1) ∧
    (frame ops sp st now prev).params.kneeAngle =
      lerp prev.kneeAngle
        (clamp (kneeTarget ops sp (lockUpdate sp st now) now) 0 90) 0.14 ∧
    (frame ops sp st now prev).params.stepAngle =
      lerp prev.stepAngle
        (clamp (stepTarget ops (lockUpdate sp st now) now) (-35) 35) 0.14 ∧
    (frame ops sp st now prev).params.verticalShift =
      lerp prev.verticalShift
        (verticalTarget ops (lockUpdate sp st now) now) 0.14 ∧
    (frame ops sp st now prev).params.hipAngle =
      lerp prev.hipAngle sp.hipAngle (0.14 * 0.6) :=
  ⟨rfl, rfl, rfl, rfl, rfl, rfl⟩

/-- C9: one animation frame preserves the clamp ranges of the four clamped
joint parameters: knee in [0, 90], ankle in [-90, 60], arch in [2, 8] and
step in [-35, 35], because each new value is a convex combination of the
in-range previous value and a target clamped to the same range. -/
theorem C9_clamp_preservation (ops : MathOps) (sp : LegParams)
    (st : AnimState) (now : ℚ) (prev : LegParams)
    (hk0 : 0 ≤ prev.kneeAngle) (hk1 : prev.kneeAngle ≤ 90)
    (ha0 : -90 ≤ prev.ankleAngle) (ha1 : prev.ankleAngle ≤ 60)
    (hr0 : 2 ≤ prev.archHeight) (hr1 : prev.archHeight ≤ 8)
    (hs0 : -35 ≤ prev.stepAngle) (hs1 : prev.stepAngle ≤ 35) :
    (0 ≤ (frame ops sp st now prev).params.kneeAngle ∧
      (frame ops sp st now prev).params.kneeAngle ≤ 90) ∧
    (-90 ≤ (frame ops sp st now prev).params.ankleAngle ∧
      (frame ops sp st now prev).params.ankleAngle ≤ 60) ∧
    (2 ≤ (frame ops sp st now prev).params.archHeight ∧
      (frame ops sp st now prev).params.archHeight ≤ 8) ∧
    (-35 ≤ (frame ops sp st now prev).params.stepAngle ∧
      (frame ops sp st now prev).params.stepAngle ≤ 35) :=
  ⟨lerp_clamp_mem prev.kneeAngle _ 0 90 0.14 hk0 hk1 (by norm_num) (by norm_num),
   lerp_clamp_mem prev.ankleAngle _ (-90) 60 0.14 ha0 ha1 (by norm_num) (by norm_num),
   lerp_clamp_mem prev.archHeight _ 2 8 (0.14 * 1.1) hr0 hr1 (by norm_num) (by norm_num),
   lerp_clamp_mem prev.stepAngle _ (-35) 35 0.14 hs0 hs1 (by norm_num) (by norm_num)⟩

/-- C9 witness: one frame stepped from the default parameters (knee 5,
ankle -85, arch 4, step 0) stays within every clamp range. -/
theorem C9_witness :
    (0 ≤ (frame zeroOps defaultParams (mkAnimState 0 defaultParams) 100
        defaultParams).params.kneeAngle ∧
      (frame zeroOps defaultParams (mkAnimState 0 defaultParams) 100
        defaultParams).params.kneeAngle ≤ 90) ∧
    (-90 ≤ (frame zeroOps defaultParams (mkAnimState 0 defaultParams) 100
        defaultParams).params.ankleAngle ∧
      (frame zeroOps defaultParams (mkAnimState 0 defaultParams) 100
        defaultParams).params.ankleAngle ≤ 60) ∧
    (2 ≤ (frame zeroOps defaultParams (mkAnimState 0 defaultParams) 100
        defaultParams).params.archHeight ∧
      (frame zeroOps defaultParams (mkAnimState 0 defaultParams) 100
        defaultParams).params.archHeight ≤ 8) ∧
    (-35 ≤ (frame zeroOps defaultParams (mkAnimState 0 defaultParams) 100
        defaultParams).params.stepAngle ∧
      (frame zeroOps defaultParams (mkAnimState 0 defaultParams) 100
        defaultParams).params.stepAngle ≤ 35) :=
  C9_clamp_preservation zeroOps defaultParams (mkAnimState 0 defaultParams) 100
    defaultParams (by norm_num [defaultParams]) (by norm_num [defaultParams])
    (by norm_num [defaultParams]) (by norm_num [defaultParams])
    (by norm_num [defaultParams]) (by norm_num [defaultParams])
    (by norm_num [defaultParams]) (by norm_num [defaultParams])

/-- C10 witness: a successful save of a record differing in one field. -/
theorem C10_witness :
    save ⟨intParams, none⟩ { intParams with kneeAngle := 7 } true =
      ⟨{ intParams with kneeAngle := 7 },
        some (stringifyParams { intParams with kneeAngle := 7 })⟩ :=
  (C10_save_behavior ⟨intParams, none⟩ { intParams with kneeAngle := 7 }
    true).2.1 (by decide) rfl

end Pie
